import Mathlib

/-!
Verification development for the ESP32 LoRa gateway bridge.

The definitions below are shallow embeddings of the C++ sources:
`device_registry` (device table, dedup ring), `command_sender` (command
queue, retry, frame encoder, radio transmit path), `lora_receiver`
(receive task), and `mqtt_bridge` (broker ingress and the readings
translator).  Machine integers are modelled as `Nat`/`Int`; fixed C
arrays are modelled as lists of their live elements; `millis()` values
are passed in explicitly as `Nat` timestamps.  Definitions carry the
source function names where Lean permits.

The wire-format header `lora_protocol.h` is not part of the sources;
where a definition depends on it, the definition is modelled from the
specification and its doc comment says so.
-/

namespace LoraGw

/-! ## Byte-level helpers -/

/-- Little-endian byte serialization: `leBytes n d` is the `n` low-order
bytes of `d`, least significant first. -/
def leBytes : Nat → Nat → List Nat
  | 0, _ => []
  | n + 1, d => d % 256 :: leBytes n (d / 256)

/-- Recompose a little-endian byte list into a natural number. -/
def leVal (bs : List Nat) : Nat :=
  bs.foldr (fun b acc => b + 256 * acc) 0

/-- XOR-fold of a byte list, starting from 0.  Mirrors the checksum
loops of `initCommandHeader` in `command_sender.cpp`. -/
def xorBytes (bs : List Nat) : Nat :=
  bs.foldl Nat.xor 0

/-- ASCII decimal rendering of a number, as the byte values produced by
`snprintf("%lu", n)` in the sources (no trailing NUL). -/
def asciiDec (n : Nat) : List Nat :=
  (Nat.toDigits 10 n).map Char.toNat

/-- Lowercase hexadecimal rendering, as produced by the Arduino
`String(value, HEX)` constructor used for auto-generated device names. -/
def hexLowerStr (n : Nat) : String :=
  String.mk (Nat.toDigits 16 n)

theorem leBytes_length (n d : Nat) : (leBytes n d).length = n := by
  induction n generalizing d with
  | zero => rfl
  | succ n ih => simp [leBytes, ih]

theorem leVal_leBytes (n d : Nat) : leVal (leBytes n d) = d % 256 ^ n := by
  induction n generalizing d with
  | zero => simp [leBytes, leVal, Nat.mod_one]
  | succ n ih =>
    have h1 : d / 256 % 256 ^ n = d % (256 * 256 ^ n) / 256 :=
      (Nat.mod_mul_right_div_self d 256 (256 ^ n)).symm
    have h2 : d % (256 * 256 ^ n) % 256 = d % 256 := by
      have : (256 : Nat) ∣ 256 * 256 ^ n := Dvd.intro (256 ^ n) (by ring)
      exact Nat.mod_mod_of_dvd d this
    have h3 : d % (256 * 256 ^ n) = d % 256 + 256 * (d % (256 * 256 ^ n) / 256) := by
      conv_lhs => rw [← Nat.mod_add_div (d % (256 * 256 ^ n)) 256]
      rw [h2]
    simp only [leBytes, leVal, List.foldr] at *
    rw [show (256 : Nat) ^ (n + 1) = 256 * 256 ^ n by ring]
    rw [ih (d / 256), h1]
    omega

/-! ## Device registry (`device_registry.cpp`, unnamed part_007)

The registry is a fixed array of `MAX_SENSORS = 10` records with a live
count; it is modelled as the list of live records.  The dedup ring is
the 50-entry `sequenceBuffer` array plus `bufferIndex`. -/

def MAX_SENSORS : Nat := 10

def DEDUP_BUFFER_SIZE : Nat := 50

structure DeviceInfo where
  deviceId : Nat
  deviceName : String
  location : String
  lastSeen : Nat
  lastRssi : Int
  lastSnr : Int
  packetCount : Nat
  lastSequence : Nat
  sequenceBuffer : List Nat
  bufferIndex : Nat
  deriving DecidableEq, Repr

/-- Update the element at index `i` of a list, identity when out of
range.  Used to mirror in-place mutation of an array slot. -/
def modifyAt (l : List DeviceInfo) (i : Nat) (f : DeviceInfo → DeviceInfo) :
    List DeviceInfo :=
  match l, i with
  | [], _ => []
  | d :: rest, 0 => f d :: rest
  | d :: rest, i + 1 => d :: modifyAt rest i f

/-- Default name for an auto-registered device: `"sensor_" +
String((uint32_t)(deviceId & 0xFFFFFFFF), HEX)`. -/
def autoName (deviceId : Nat) : String :=
  "sensor_" ++ hexLowerStr (deviceId % 2 ^ 32)

/-- `addDevice` from `device_registry`: refuses when the registry already
holds `MAX_SENSORS` records, otherwise appends a fresh record.  The
fresh dedup ring is zero-filled (`memset(..., 0, ...)` in the source). -/
def addDevice (now : Nat) (reg : List DeviceInfo) (deviceId : Nat)
    (name location : String) : List DeviceInfo :=
  if MAX_SENSORS ≤ reg.length then reg
  else reg ++ [{ deviceId := deviceId, deviceName := name, location := location,
                 lastSeen := now, lastRssi := 0, lastSnr := 0,
                 packetCount := 0, lastSequence := 0,
                 sequenceBuffer := List.replicate DEDUP_BUFFER_SIZE 0,
                 bufferIndex := 0 }]

/-- The per-reception record update performed by `updateDeviceInfo`:
refresh metrics, bump the packet count, write the sequence number into
the dedup ring at the current index, advance the index modulo 50. -/
def observeUpd (now seqNum : Nat) (rssi snr : Int) (d : DeviceInfo) :
    DeviceInfo :=
  { d with lastSeen := now, lastRssi := rssi, lastSnr := snr,
           packetCount := d.packetCount + 1, lastSequence := seqNum,
           sequenceBuffer := d.sequenceBuffer.set d.bufferIndex seqNum,
           bufferIndex := (d.bufferIndex + 1) % DEDUP_BUFFER_SIZE }

/-- `updateDeviceInfo` from `device_registry`: find the record for the
device; when absent, call `addDevice` and then update the record at
index `deviceCount - 1` — exactly as the source does, whether or not the
add was refused. -/
def updateDeviceInfo (now : Nat) (reg : List DeviceInfo) (deviceId seqNum : Nat)
    (rssi snr : Int) : List DeviceInfo :=
  match reg.findIdx? (fun d => d.deviceId = deviceId) with
  | some i => modifyAt reg i (observeUpd now seqNum rssi snr)
  | none =>
    let reg2 := addDevice now reg deviceId (autoName deviceId) "Unknown"
    modifyAt reg2 (reg2.length - 1) (observeUpd now seqNum rssi snr)

/-- `isDuplicate` from `device_registry`: scan the device's whole dedup
ring for the sequence number; unknown devices are never duplicates. -/
def isDuplicate (reg : List DeviceInfo) (deviceId seqNum : Nat) : Bool :=
  match reg.find? (fun d => d.deviceId = deviceId) with
  | some d => d.sequenceBuffer.contains seqNum
  | none => false

/-- `clearDuplicationBuffer` from `device_registry`: fill the ring with
the `0xFFFF` invalid sentinel and reset the index. -/
def clearDuplicationBuffer (reg : List DeviceInfo) (deviceId : Nat) :
    List DeviceInfo :=
  match reg.findIdx? (fun d => d.deviceId = deviceId) with
  | some i => modifyAt reg i (fun d =>
      { d with sequenceBuffer := List.replicate DEDUP_BUFFER_SIZE 0xFFFF,
               bufferIndex := 0 })
  | none => reg

/-! ## Command queue (`command_sender.cpp`) -/

def MAX_QUEUED_COMMANDS : Nat := 10

structure QueuedCommand where
  sensorId : Nat
  cmdType : Nat
  params : List Nat
  queuedAt : Nat
  retryCount : Nat
  deriving DecidableEq, Repr

/-- The coalescing scan of `queueCommand`: update the first entry with
the same `(sensorId, cmdType)`; the stored parameters are overwritten
only when the incoming parameter array is non-empty (`paramLen > 0 &&
params` in the source). -/
def coalesceUpd (now : Nat) (sensorId cmdType : Nat) (ps : List Nat) :
    List QueuedCommand → Option (List QueuedCommand)
  | [] => none
  | c :: rest =>
    if c.sensorId = sensorId ∧ c.cmdType = cmdType then
      some ({ c with queuedAt := now, retryCount := 0,
                     params := if ps.isEmpty then c.params else ps } :: rest)
    else
      (coalesceUpd now sensorId cmdType ps rest).map (c :: ·)

/-- `queueCommand` from `command_sender`: reject when the queue already
holds `MAX_QUEUED_COMMANDS` entries (this check runs before the
coalescing scan); otherwise coalesce into an existing `(sensorId,
cmdType)` entry or append a fresh one.  The eager transmission attempt
does not modify the queue and is not part of the state transition. -/
def queueCommand (now : Nat) (q : List QueuedCommand) (sensorId cmdType : Nat)
    (ps : List Nat) : Bool × List QueuedCommand :=
  if MAX_QUEUED_COMMANDS ≤ q.length then (false, q)
  else
    match coalesceUpd now sensorId cmdType ps q with
    | some q2 => (true, q2)
    | none => (true, q ++ [{ sensorId := sensorId, cmdType := cmdType,
                             params := ps, queuedAt := now, retryCount := 0 }])

/-- Fold a sequence of enqueues of the same `(sensorId, cmdType)` pair;
each element is the `(millis, params)` of one `queueCommand` call. -/
def enqueueSeq (sensorId cmdType : Nat) (es : List (Nat × List Nat))
    (q0 : List QueuedCommand) : List QueuedCommand :=
  es.foldl (fun q e => (queueCommand e.1 q sensorId cmdType e.2).2) q0

/-- The parameters surviving a same-pair enqueue sequence: the latest
non-empty parameter array, empty if none was ever supplied. -/
def latestParams (es : List (Nat × List Nat)) : List Nat :=
  es.foldl (fun acc e => if e.2.isEmpty then acc else e.2) []

/-- The `set_interval` branch of `mqttCallback` in the MQTT bridge:
read the value with default 30, render it as ASCII decimal and enqueue
command type `0x07` — with no range check. -/
def mqttCallbackSetInterval (now : Nat) (q : List QueuedCommand)
    (target : Nat) (value : Option Nat) : Bool × List QueuedCommand :=
  let seconds := value.getD 30
  queueCommand now q target 0x07 (asciiDec seconds)

/-! ## Frame codec

The on-wire header is declared in `lora_protocol.h`, which is not among
the sources; its layout and the decoder are modelled from the
specification (§3 wire layout, §4.1 decoding steps).  The encoder-side
checksum computation is translated from `initCommandHeader` in
`command_sender.cpp`, which XORs every serialized header byte before the
checksum byte. -/

/-- Modelled from the spec: first magic byte of the 2-byte protocol
magic constant.  `lora_protocol.h` is absent; the concrete value is not
given by the spec and none of the proved properties depend on it. -/
def LORA_MAGIC_BYTE_1 : Nat := 0xAB

/-- Modelled from the spec: second magic byte; placeholder value, see
`LORA_MAGIC_BYTE_1`. -/
def LORA_MAGIC_BYTE_2 : Nat := 0xCD

/-- Modelled from the spec: supported protocol version byte;
placeholder value, see `LORA_MAGIC_BYTE_1`. -/
def LORA_PROTOCOL_VERSION : Nat := 0x01

/-- Modelled from the spec: the five message types READINGS, STATUS,
EVENT, COMMAND, ACK; numeric values are placeholders (distinct bytes),
see `LORA_MAGIC_BYTE_1`. -/
def MSG_READINGS : Nat := 0x01

def MSG_STATUS : Nat := 0x02

def MSG_EVENT : Nat := 0x03

def MSG_COMMAND : Nat := 0x04

def MSG_ACK : Nat := 0x05

/-- Maximum payload length in bytes (spec §3: maximum payload 238). -/
def LORA_MAX_PAYLOAD_SIZE : Nat := 238

/-- Size in bytes of the packed frame header: 2 magic + 1 version +
1 type + 8 device id + 2 sequence + 1 payload length + 1 checksum. -/
def headerSize : Nat := 16

structure LoRaPacketHeader where
  msgType : Nat
  deviceId : Nat
  sequenceNum : Nat
  payloadLen : Nat
  deriving DecidableEq, Repr

/-- Modelled from the spec: the packed little-endian serialization of
the header fields before the checksum byte (15 bytes). -/
def headerBytesNoCk (h : LoRaPacketHeader) : List Nat :=
  [LORA_MAGIC_BYTE_1, LORA_MAGIC_BYTE_2, LORA_PROTOCOL_VERSION, h.msgType % 256]
    ++ leBytes 8 h.deviceId ++ leBytes 2 h.sequenceNum ++ [h.payloadLen % 256]

/-- The header checksum as computed by `initCommandHeader`: XOR of all
serialized header bytes that precede the checksum byte. -/
def headerChecksum (h : LoRaPacketHeader) : Nat :=
  xorBytes (headerBytesNoCk h)

/-- Full 16-byte serialized header: the 15 field bytes followed by the
checksum byte, as built by `initCommandHeader`. -/
def initCommandHeader (h : LoRaPacketHeader) : List Nat :=
  headerBytesNoCk h ++ [headerChecksum h]

/-- The command frame assembled by `sendCommand` in
`command_sender.cpp`: header with message type COMMAND and payload
length `2 + paramLen`, followed by the payload
`[cmdType, paramLen, params...]`. -/
def encodeCommandFrame (deviceId seqNum cmdType : Nat) (params : List Nat) :
    List Nat :=
  initCommandHeader { msgType := MSG_COMMAND, deviceId := deviceId,
                      sequenceNum := seqNum, payloadLen := 2 + params.length }
    ++ cmdType % 256 :: params.length % 256 :: params

inductive DecodeErr where
  | frameTooShort
  | badMagic
  | badVersion
  | badChecksum
  | truncated
  deriving DecidableEq, Repr

/-- Modelled from the spec: frame decoding (§4.1 steps 1–6) — a frame
shorter than the 16-byte header is *frame-too-short*; then magic,
version and XOR-checksum checks; a declared payload length exceeding
the bytes that follow the header is *truncated*; otherwise the header
and the payload slice of the declared length are returned.
`lora_protocol.h` is absent from the sources. -/
def decodeFrame (bytes : List Nat) : Except DecodeErr (LoRaPacketHeader × List Nat) :=
  match bytes with
  | b0 :: b1 :: b2 :: b3 :: b4 :: b5 :: b6 :: b7 :: b8 :: b9 :: b10 :: b11 ::
      b12 :: b13 :: b14 :: b15 :: rest =>
    if ¬(b0 = LORA_MAGIC_BYTE_1 ∧ b1 = LORA_MAGIC_BYTE_2) then .error .badMagic
    else if b2 ≠ LORA_PROTOCOL_VERSION then .error .badVersion
    else if xorBytes [b0, b1, b2, b3, b4, b5, b6, b7, b8, b9, b10, b11, b12, b13, b14] ≠ b15 then
      .error .badChecksum
    else if rest.length < b14 then .error .truncated
    else
      .ok ({ msgType := b3, deviceId := leVal [b4, b5, b6, b7, b8, b9, b10, b11],
             sequenceNum := leVal [b12, b13], payloadLen := b14 },
           rest.take b14)
  | _ => .error .frameTooShort

/-- Modelled from the spec: `validateHeader` from the absent
`lora_protocol.h`, as invoked by the receive task — magic, version and
XOR-checksum checks over the serialized header bytes (it receives only
the header and therefore cannot compare the declared payload length
against the received byte count). -/
def validateHeader (bytes : List Nat) : Bool :=
  bytes.getD 0 0 = LORA_MAGIC_BYTE_1 ∧ bytes.getD 1 0 = LORA_MAGIC_BYTE_2 ∧
  bytes.getD 2 0 = LORA_PROTOCOL_VERSION ∧ xorBytes (bytes.take 15) = bytes.getD 15 0

/-! ## Receive pipeline (`lora_receiver.cpp`, `loraRxTask`)

One iteration of the packet-processing branch, for a successfully read
frame: statistics, minimum-length check, header validation, duplicate
filtering, registry update, enqueue to the decoded-record queue (20
slots), and the ACK decision.  Decisions depending on radio I/O (IRQ
polling, `readData` status) are outside the per-packet function. -/

structure ReceivedPacket where
  header : LoRaPacketHeader
  payload : List Nat
  rssi : Int
  snr : Int
  timestamp : Nat
  deriving DecidableEq, Repr

structure GwState where
  registry : List DeviceInfo
  rxQueue : List ReceivedPacket
  packetsReceived : Nat
  packetsDropped : Nat
  duplicatesFiltered : Nat
  acksSent : Nat
  deriving DecidableEq, Repr

/-- Payload bytes copied into the `ReceivedPacket`: the RX buffer is
zero-filled before `readData`, and the copy runs only when
`0 < payloadLen ≤ 238`, reading `payloadLen` bytes starting at offset
16 of the buffer (zero-padded past the received bytes). -/
def rxPayloadBytes (raw : List Nat) (payloadLen : Nat) : List Nat :=
  if 0 < payloadLen ∧ payloadLen ≤ LORA_MAX_PAYLOAD_SIZE then
    ((raw.drop headerSize) ++ List.replicate LORA_MAX_PAYLOAD_SIZE 0).take payloadLen
  else []

/-- Parse the header fields out of the zero-padded RX buffer, as the
struct overlay in `loraRxTask` does (layout modelled from the spec, see
`headerBytesNoCk`). -/
def parseHeader (raw : List Nat) : LoRaPacketHeader :=
  { msgType := raw.getD 3 0,
    deviceId := leVal ((raw.drop 4).take 8),
    sequenceNum := leVal ((raw.drop 12).take 2),
    payloadLen := raw.getD 14 0 }

/-- One packet-processing iteration of `loraRxTask`, applied to the raw
received bytes of one frame. -/
def processPacket (st : GwState) (raw : List Nat) (rssi snr : Int)
    (now : Nat) : GwState :=
  let st := { st with packetsReceived := st.packetsReceived + 1 }
  if raw.length < headerSize then
    { st with packetsDropped := st.packetsDropped + 1 }
  else if ¬ validateHeader raw then
    { st with packetsDropped := st.packetsDropped + 1 }
  else
    let header := parseHeader raw
    if isDuplicate st.registry header.deviceId header.sequenceNum then
      { st with duplicatesFiltered := st.duplicatesFiltered + 1 }
    else
      let st := { st with
        registry := updateDeviceInfo now st.registry header.deviceId
          header.sequenceNum rssi snr }
      let pkt : ReceivedPacket :=
        { header := header, payload := rxPayloadBytes raw header.payloadLen,
          rssi := rssi, snr := snr, timestamp := now }
      let st :=
        if st.rxQueue.length < 20 then { st with rxQueue := st.rxQueue ++ [pkt] }
        else { st with packetsDropped := st.packetsDropped + 1 }
      if header.msgType = MSG_READINGS ∨ header.msgType = MSG_STATUS ∨
          header.msgType = MSG_EVENT then
        { st with acksSent := st.acksSent + 1 }
      else st

/-! ## Readings translator (`mqtt_bridge`, unnamed part_009) -/

/-- Modelled from the spec: the READINGS payload record of the absent
`lora_protocol.h` (fields per spec §3: centi-encoded temperature,
humidity, pressure, altitude, battery millivolts and percent, signed
pressure change, trend, source timestamp).  `publishReadings` consumes
the already-overlaid struct, so only the fields matter here. -/
structure ReadingsPayload where
  temperature : Int
  humidity : Nat
  pressure : Nat
  altitude : Int
  batteryVoltage : Nat
  batteryPercent : Nat
  pressureChange : Int
  pressureTrend : Nat
  timestamp : Nat
  deriving DecidableEq, Repr

/-- Modelled from the spec: `sizeof(ReadingsPayload)`, the fixed size
the translator requires of a READINGS payload; the exact byte count is
not given by the sources, the properties only use it as an opaque
guard. -/
def READINGS_PAYLOAD_SIZE : Nat := 20

/-- `detectSensorType` from the MQTT bridge: pressure first, then
humidity, else temperature-only. -/
def detectSensorType (r : ReadingsPayload) : String :=
  if r.pressure ≠ 0 then "BME280"
  else if r.humidity ≠ 0 then "DHT22"
  else "DS18B20"

/-- JSON scalar values as emitted by the translator: strings, and
numbers modelled exactly as rationals (the C code divides centi-encoded
integers by 100.0 and millivolts by 1000.0). -/
inductive JVal where
  | s (v : String)
  | q (v : ℚ)
  deriving DecidableEq, Repr

/-- Uppercase zero-padded 16-digit hex rendering of a device id
(`"%016llX"` in `formatDeviceId`). -/
def formatDeviceId (deviceId : Nat) : String :=
  String.mk (((Nat.toDigits 16 (deviceId % 2 ^ 64)).map Char.toUpper).reverse
    ++ List.replicate (16 - (Nat.toDigits 16 (deviceId % 2 ^ 64)).length) '0').reverse

def mqttTopicRoot : String := "esp-sensor-hub/"

/-- `publishReadings` from the MQTT bridge: size guard, sensor-type
classification, and the flat JSON message assembled in source order;
BME280-specific fields are skipped for temperature-only (DS18B20)
records.  Returns the topic and the ordered key/value pairs; `none`
models the early return on a payload-size mismatch.  The resolved name
and location are passed in (the source fetches them from the
registry). -/
def publishReadings (deviceId seqNum payloadLen : Nat) (r : ReadingsPayload)
    (deviceName deviceLocation : String) (rssi snr : Int) (gatewayTime : Nat) :
    Option (String × List (String × JVal)) :=
  if payloadLen ≠ READINGS_PAYLOAD_SIZE then none
  else
    let sensorType := detectSensorType r
    let isDS18B20 := sensorType = "DS18B20"
    let base : List (String × JVal) :=
      [("device_id", .s (formatDeviceId deviceId)),
       ("device_name", .s deviceName),
       ("location", .s deviceLocation),
       ("sensor_type", .s sensorType),
       ("timestamp", .q r.timestamp),
       ("sequence", .q seqNum),
       ("temperature", .q ((r.temperature : ℚ) / 100))]
    let env : List (String × JVal) :=
      if isDS18B20 then []
      else
        [("humidity", .q ((r.humidity : ℚ) / 100)),
         ("pressure", .q ((r.pressure : ℚ) / 100)),
         ("altitude", .q (r.altitude : ℚ)),
         ("pressure_change", .q (r.pressureChange : ℚ)),
         ("pressure_trend", .q (r.pressureTrend : ℚ))]
    let battery : List (String × JVal) :=
      [("battery_voltage", .q ((r.batteryVoltage : ℚ) / 1000)),
       ("battery_percent", .q (r.batteryPercent : ℚ)),
       ("rssi", .q (rssi : ℚ)),
       ("snr", .q (snr : ℚ)),
       ("gateway_time", .q (gatewayTime : ℚ))]
    some (mqttTopicRoot ++ formatDeviceId deviceId ++ "/readings",
          base ++ env ++ battery)

/-! ## Command transmission path (`sendCommand` in `command_sender.cpp`)

The radio interactions of one `sendCommand` call are modelled as an
event trace; the environment supplies the outcome of each fallible
step (mutex acquisition, `standby()`, the BUSY line, `transmit()`). -/

inductive REvent where
  | standby
  | startReceive
  | transmit
  | releaseMutex
  deriving DecidableEq, Repr

structure SendEnv where
  radioInitialized : Bool
  radioNonNull : Bool
  mutexNonNull : Bool
  mutexAcquired : Bool
  standbyOk : Bool
  busyCleared : Bool
  transmitOk : Bool
  deriving DecidableEq, Repr

/-- The return value and radio-event trace of `sendCommand`, following
the source's guards and return paths in order: initialization and
parameter-size guards, null checks, mutex acquisition with timeout,
`standby()`, the BUSY-line wait with 1 s timeout, and `transmit()` with
receive restarted on both outcomes. -/
def sendCommand (env : SendEnv) (paramLen : Nat) : Bool × List REvent :=
  if ¬ env.radioInitialized then (false, [])
  else if LORA_MAX_PAYLOAD_SIZE < paramLen then (false, [])
  else if ¬ env.radioNonNull then (false, [])
  else if ¬ env.mutexNonNull then (false, [])
  else if ¬ env.mutexAcquired then (false, [])
  else if ¬ env.standbyOk then (false, [.standby, .releaseMutex])
  else if ¬ env.busyCleared then (false, [.standby, .startReceive, .releaseMutex])
  else if env.transmitOk then
    (true, [.standby, .transmit, .startReceive, .releaseMutex])
  else (false, [.standby, .transmit, .startReceive, .releaseMutex])

/-- The radio-arbiter discipline predicate: whenever the trace releases
the mutex, a `startReceive` occurs strictly before the release. -/
def restoresRxBeforeRelease (tr : List REvent) : Prop :=
  REvent.releaseMutex ∈ tr →
    REvent.startReceive ∈ tr.takeWhile (fun e => e ≠ REvent.releaseMutex)

/-! ## Claim C1 — registry at capacity -/

/-- A registry filled to its capacity of 10 with devices 1..10, all in
the fresh state `addDevice` produces. -/
def reg10 : List DeviceInfo :=
  (List.range MAX_SENSORS).map fun i =>
    { deviceId := i + 1, deviceName := "d", location := "l", lastSeen := 0,
      lastRssi := 0, lastSnr := 0, packetCount := 0, lastSequence := 0,
      sequenceBuffer := List.replicate DEDUP_BUFFER_SIZE 0, bufferIndex := 0 }

/-- Claim C1: at capacity, a reception from the unknown device 11 is
claimed to leave all 10 existing records unchanged.  In the code the
refused `addDevice` leaves `deviceCount` at 10, yet `updateDeviceInfo`
still updates the record at index `deviceCount - 1`: device 10's
metrics, packet count and dedup ring absorb device 11's reception. -/
theorem C1_registry_full_corrupts_last_record :
    updateDeviceInfo 100 reg10 11 42 (-80) 7 ≠ reg10 ∧
    (updateDeviceInfo 100 reg10 11 42 (-80) 7).length = 10 ∧
    (updateDeviceInfo 100 reg10 11 42 (-80) 7)[9]? =
      some { deviceId := 10, deviceName := "d", location := "l",
             lastSeen := 100, lastRssi := -80, lastSnr := 7,
             packetCount := 1, lastSequence := 42,
             sequenceBuffer := (List.replicate DEDUP_BUFFER_SIZE 0).set 0 42,
             bufferIndex := 1 } ∧
    (updateDeviceInfo 100 reg10 11 42 (-80) 7).take 9 = reg10.take 9 := by
  decide

/-! ## Claim C2 — fresh dedup ring -/

/-- Claim C2: a freshly created device record should report every
never-observed sequence number as non-duplicate (0xFFFF aside).  The
code's `addDevice` zero-fills the ring instead of writing the 0xFFFF
sentinel, so sequence number 0 — never observed — is reported as a
duplicate for a fresh device, and the fresh ring slots are neither
0xFFFF nor observed values. -/
theorem C2_fresh_ring_flags_seq_zero_duplicate :
    isDuplicate (addDevice 0 [] 7 "n" "Unknown") 7 0 = true ∧
    (addDevice 0 [] 7 "n" "Unknown").map (fun d => d.packetCount) = [0] ∧
    (addDevice 0 [] 7 "n" "Unknown").map (fun d => d.sequenceBuffer.contains 0xFFFF) =
      [false] := by
  decide

/-! ## Claim C3 — command queue at capacity -/

/-- A command queue filled to its capacity of 10, holding the pair
`(1, 7)` among its entries. -/
def q10full : List QueuedCommand :=
  (List.range MAX_QUEUED_COMMANDS).map fun i =>
    { sensorId := i + 1, cmdType := 7, params := [], queuedAt := 0,
      retryCount := 0 }

/-- Claim C3 counterexample: with the queue at capacity and an entry
for `(1, 7)` present, re-enqueuing `(1, 7)` is claimed to still
succeed; the code checks capacity before the coalescing scan and
returns queue-full, leaving the queue unchanged. -/
theorem C3_counterexample_full_queue_refuses_matching_pair :
    (∃ c ∈ q10full, c.sensorId = 1 ∧ c.cmdType = 7) ∧
    q10full.length = MAX_QUEUED_COMMANDS ∧
    queueCommand 9 q10full 1 7 [51] = (false, q10full) := by
  decide

/-- Claim C3 (amended): when the command queue holds its capacity of 10
entries, every enqueue returns queue-full and leaves the queue
unchanged, whether or not the `(target, type)` pair matches an existing
entry; coalescing applies only below capacity. -/
theorem C3_full_queue_refuses_all
    (now : Nat) (q : List QueuedCommand) (sensorId cmdType : Nat)
    (ps : List Nat) (h : MAX_QUEUED_COMMANDS ≤ q.length) :
    queueCommand now q sensorId cmdType ps = (false, q) := by
  unfold queueCommand
  rw [if_pos h]

/-- Claim C3 witness: the amended theorem applied to the concrete full
queue. -/
theorem C3_full_queue_refuses_all_witness :
    queueCommand 9 q10full 1 7 [51] = (false, q10full) :=
  C3_full_queue_refuses_all 9 q10full 1 7 [51] (by decide)

/-! ## Claim C5 — broker set_interval validation -/

/-- Claim C5: every `set_interval` accepted from the broker command
topic is claimed to satisfy 5 ≤ value ≤ 3600.  The MQTT callback's
`set_interval` branch performs no range check: value 4 (below the
documented minimum) is enqueued as command 0x07 with ASCII parameter
"4" and reported as successfully queued. -/
theorem C5_mqtt_set_interval_skips_range_check :
    4 < 5 ∧
    mqttCallbackSetInterval 0 [] 2 (some 4) =
      (true, [{ sensorId := 2, cmdType := 0x07, params := [52], queuedAt := 0,
                retryCount := 0 }]) := by
  decide

/-! ## Claim C10 — re-enqueue with empty parameters -/

/-- Coalescing reaches exactly the first matching entry: entries before
it are untouched, the tail after it is untouched. -/
theorem coalesceUpd_first_match
    (now sensorId cmdType : Nat) (ps : List Nat)
    (q1 q2 : List QueuedCommand) (c : QueuedCommand)
    (hq1 : ∀ c1 ∈ q1, ¬(c1.sensorId = sensorId ∧ c1.cmdType = cmdType))
    (hcs : c.sensorId = sensorId) (hct : c.cmdType = cmdType) :
    coalesceUpd now sensorId cmdType ps (q1 ++ c :: q2) =
      some (q1 ++ { c with queuedAt := now, retryCount := 0,
                           params := if ps.isEmpty then c.params else ps } :: q2) := by
  induction q1 with
  | nil =>
    simp [coalesceUpd, hcs, hct]
  | cons c1 rest ih =>
    have h1 : ¬(c1.sensorId = sensorId ∧ c1.cmdType = cmdType) :=
      hq1 c1 (List.mem_cons_self c1 rest)
    have ih2 := ih (fun c2 hc2 => hq1 c2 (List.mem_cons_of_mem c1 hc2))
    simp [coalesceUpd, h1, ih2]

/-- Claim C10: re-enqueueing a command whose `(target, type)` matches an
existing entry updates the first matching entry in place — the enqueue
timestamp is refreshed and the retry counter reset — while the stored
parameters survive unchanged when the incoming parameter array is
empty, and are replaced exactly when it is non-empty.  Entries before
and after the matching one are untouched and the enqueue succeeds. -/
theorem C10_empty_params_preserved
    (now sensorId cmdType : Nat) (ps : List Nat)
    (q1 q2 : List QueuedCommand) (c : QueuedCommand)
    (hq1 : ∀ c1 ∈ q1, ¬(c1.sensorId = sensorId ∧ c1.cmdType = cmdType))
    (hcs : c.sensorId = sensorId) (hct : c.cmdType = cmdType)
    (hlen : (q1 ++ c :: q2).length < MAX_QUEUED_COMMANDS) :
    queueCommand now (q1 ++ c :: q2) sensorId cmdType ps =
      (true, q1 ++ { c with queuedAt := now, retryCount := 0,
                            params := if ps.isEmpty then c.params else ps } :: q2) := by
  unfold queueCommand
  rw [if_neg (by omega), coalesceUpd_first_match now sensorId cmdType ps q1 q2 c hq1 hcs hct]

/-- Claim C10 witness: a queue with an unrelated entry followed by the
entry `(1, 7)` holding parameters `[51]`; re-enqueueing `(1, 7)` with an
empty parameter array at time 99 keeps the parameters and resets
timestamp and retry counter. -/
theorem C10_empty_params_preserved_witness :
    queueCommand 99 [{ sensorId := 5, cmdType := 9, params := [], queuedAt := 0,
                       retryCount := 0 },
                     { sensorId := 1, cmdType := 7, params := [51], queuedAt := 3,
                       retryCount := 2 }] 1 7 [] =
      (true, [{ sensorId := 5, cmdType := 9, params := [], queuedAt := 0,
                retryCount := 0 },
              { sensorId := 1, cmdType := 7, params := [51], queuedAt := 99,
                retryCount := 0 }]) := by
  have h := C10_empty_params_preserved 99 1 7 []
    [{ sensorId := 5, cmdType := 9, params := [], queuedAt := 0, retryCount := 0 }]
    []
    { sensorId := 1, cmdType := 7, params := [51], queuedAt := 3, retryCount := 2 }
    (by decide) rfl rfl (by decide)
  simpa using h

/-! ## Claim C6 — same-pair coalescing sequences -/

/-- Claim C6 counterexample: two enqueues of the pair `(1, 7)`, the
first with parameters `[51]`, the latest with an empty parameter array.
The claim says the entry carries the parameters of the latest enqueue
(empty); the code keeps `[51]` because empty parameter arrays do not
overwrite. -/
theorem C6_counterexample_latest_empty_params_not_taken :
    enqueueSeq 1 7 [(0, [51]), (5, [])] [] =
      [{ sensorId := 1, cmdType := 7, params := [51], queuedAt := 5,
         retryCount := 0 }] ∧
    (enqueueSeq 1 7 [(0, [51]), (5, [])] []).map (fun c => c.params) ≠ [[]] := by
  decide

/-- Claim C6 (amended): for every non-empty sequence of enqueues of the
same `(target, type)` pair starting from an empty queue, the queue holds
exactly one entry for that pair, whose retry counter is 0, whose enqueue
timestamp is the one of the latest enqueue, and whose parameters are
those of the latest enqueue that supplied a non-empty parameter array
(empty if none did). -/
theorem C6_same_pair_coalesces_to_one
    (sensorId cmdType : Nat) (es : List (Nat × List Nat)) (h : es ≠ []) :
    enqueueSeq sensorId cmdType es [] =
      [{ sensorId := sensorId, cmdType := cmdType, params := latestParams es,
         queuedAt := (es.getLast h).1, retryCount := 0 }] := by
  induction es using List.reverseRecOn with
  | nil => cases h rfl
  | append_singleton l b ih =>
    rcases eq_or_ne l [] with hl | hl
    · subst hl
      rcases b with ⟨t, ps⟩
      have hps : (if ps.isEmpty then ([] : List Nat) else ps) = ps := by
        by_cases hp : ps.isEmpty
        · simp [hp, List.isEmpty_iff.mp hp]
        · simp [hp]
      simp [enqueueSeq, queueCommand, coalesceUpd, latestParams,
            MAX_QUEUED_COMMANDS, hps]
      split <;> simp_all
    · have ihl := ih hl
      have hstep : enqueueSeq sensorId cmdType (l ++ [b]) [] =
          (queueCommand b.1 (enqueueSeq sensorId cmdType l []) sensorId cmdType
            b.2).2 := by
        simp [enqueueSeq, List.foldl_append]
      rw [hstep, ihl]
      have hlast : ((l ++ [b]).getLast h).1 = b.1 := by
        simp [List.getLast_append]
      have hlp : latestParams (l ++ [b]) =
          if b.2.isEmpty then latestParams l else b.2 := by
        simp [latestParams, List.foldl_append]
      rw [hlast, hlp]
      by_cases hps : b.2.isEmpty <;>
        simp [queueCommand, coalesceUpd, MAX_QUEUED_COMMANDS, hps]

/-- Claim C6 witness: the amended theorem applied to a concrete
two-element enqueue sequence with distinct parameters. -/
theorem C6_same_pair_coalesces_to_one_witness :
    enqueueSeq 1 7 [(3, [52]), (8, [53])] [] =
      [{ sensorId := 1, cmdType := 7, params := [53], queuedAt := 8,
         retryCount := 0 }] := by
  have h := C6_same_pair_coalesces_to_one 1 7 [(3, [52]), (8, [53])] (by decide)
  rw [h]
  decide

/-! ## Claim C9 — receive restored before arbiter release -/

/-- Claim C9 counterexample: the claim quantifies over every return
path of `sendCommand` that acquired the arbiter; on the `standby()`
failure path the code releases the mutex without restarting receive, so
the trace `[standby, releaseMutex]` refutes it. -/
theorem C9_counterexample_standby_failure_skips_rx :
    (sendCommand { radioInitialized := true, radioNonNull := true,
                   mutexNonNull := true, mutexAcquired := true,
                   standbyOk := false, busyCleared := true,
                   transmitOk := true } 0) =
      (false, [REvent.standby, REvent.releaseMutex]) ∧
    ¬ restoresRxBeforeRelease
        (sendCommand { radioInitialized := true, radioNonNull := true,
                       mutexNonNull := true, mutexAcquired := true,
                       standbyOk := false, busyCleared := true,
                       transmitOk := true } 0).2 := by
  unfold restoresRxBeforeRelease
  decide

/-- Claim C9 (amended): on every return path of `sendCommand` on which
the `standby()` call succeeds — the busy-line timeout, the transmit
success, and the transmit failure paths — the radio is put back into
continuous receive before the arbiter is released; on the
standby-failure path the arbiter is released without restoring
receive. -/
theorem C9_standby_ok_restores_rx
    (env : SendEnv) (paramLen : Nat) (h : env.standbyOk = true) :
    restoresRxBeforeRelease (sendCommand env paramLen).2 := by
  unfold sendCommand restoresRxBeforeRelease
  split_ifs <;> simp_all

/-- Claim C9 witness: the amended theorem on the all-successful
environment. -/
theorem C9_standby_ok_restores_rx_witness :
    restoresRxBeforeRelease
      (sendCommand { radioInitialized := true, radioNonNull := true,
                     mutexNonNull := true, mutexAcquired := true,
                     standbyOk := true, busyCleared := true,
                     transmitOk := true } 3).2 :=
  C9_standby_ok_restores_rx _ 3 rfl

/-! ## Claim C7 — header checksum and encode/decode round trip -/

/-- Byte-level expansion of an encoded command frame. -/
theorem encodeCommandFrame_bytes (deviceId seqNum cmdType : Nat)
    (params : List Nat) :
    encodeCommandFrame deviceId seqNum cmdType params =
      LORA_MAGIC_BYTE_1 :: LORA_MAGIC_BYTE_2 :: LORA_PROTOCOL_VERSION ::
      MSG_COMMAND % 256 ::
      deviceId % 256 :: deviceId / 256 % 256 :: deviceId / 256 / 256 % 256 ::
      deviceId / 256 / 256 / 256 % 256 ::
      deviceId / 256 / 256 / 256 / 256 % 256 ::
      deviceId / 256 / 256 / 256 / 256 / 256 % 256 ::
      deviceId / 256 / 256 / 256 / 256 / 256 / 256 % 256 ::
      deviceId / 256 / 256 / 256 / 256 / 256 / 256 / 256 % 256 ::
      seqNum % 256 :: seqNum / 256 % 256 ::
      (2 + params.length) % 256 ::
      xorBytes [LORA_MAGIC_BYTE_1, LORA_MAGIC_BYTE_2, LORA_PROTOCOL_VERSION,
                MSG_COMMAND % 256,
                deviceId % 256, deviceId / 256 % 256, deviceId / 256 / 256 % 256,
                deviceId / 256 / 256 / 256 % 256,
                deviceId / 256 / 256 / 256 / 256 % 256,
                deviceId / 256 / 256 / 256 / 256 / 256 % 256,
                deviceId / 256 / 256 / 256 / 256 / 256 / 256 % 256,
                deviceId / 256 / 256 / 256 / 256 / 256 / 256 / 256 % 256,
                seqNum % 256, seqNum / 256 % 256, (2 + params.length) % 256] ::
      cmdType % 256 :: params.length % 256 :: params := by rfl

/-- Claim C7: in every frame emitted by the command encoder the
checksum byte (offset 15) is the XOR of the 15 header bytes before it,
and decoding an encoded frame returns the original frame: message type
COMMAND, the device id, the sequence number, the declared payload
length `2 + paramLen`, and the payload `[cmdType, paramLen, params...]`
are all recovered exactly. -/
theorem C7_command_frame_roundtrip
    (deviceId seqNum cmdType : Nat) (params : List Nat)
    (h1 : deviceId < 2 ^ 64) (h2 : seqNum < 2 ^ 16) (h3 : cmdType < 256)
    (h4 : params.length ≤ 238) :
    (encodeCommandFrame deviceId seqNum cmdType params).getD 15 0 =
      xorBytes ((encodeCommandFrame deviceId seqNum cmdType params).take 15) ∧
    decodeFrame (encodeCommandFrame deviceId seqNum cmdType params) =
      .ok ({ msgType := MSG_COMMAND, deviceId := deviceId,
             sequenceNum := seqNum, payloadLen := 2 + params.length },
           cmdType :: params.length :: params) := by
  have hb14 : (2 + params.length) % 256 = 2 + params.length :=
    Nat.mod_eq_of_lt (by omega)
  have hcl : cmdType % 256 = cmdType := Nat.mod_eq_of_lt h3
  have hpl : params.length % 256 = params.length := Nat.mod_eq_of_lt (by omega)
  rw [encodeCommandFrame_bytes]
  refine ⟨rfl, ?_⟩
  rw [decodeFrame]
  rw [if_neg (by simp), if_neg (by simp), if_neg (by simp)]
  rw [hb14, hcl, hpl]
  rw [if_neg (by simp only [List.length_cons]; omega)]
  have htake : List.take (2 + params.length) (cmdType :: params.length :: params) =
      cmdType :: params.length :: params := by
    have h5 : 2 + params.length = params.length + 1 + 1 := by omega
    rw [h5, List.take_succ_cons, List.take_succ_cons, List.take_length]
  rw [htake]
  have hdev : leVal [deviceId % 256, deviceId / 256 % 256,
      deviceId / 256 / 256 % 256, deviceId / 256 / 256 / 256 % 256,
      deviceId / 256 / 256 / 256 / 256 % 256,
      deviceId / 256 / 256 / 256 / 256 / 256 % 256,
      deviceId / 256 / 256 / 256 / 256 / 256 / 256 % 256,
      deviceId / 256 / 256 / 256 / 256 / 256 / 256 / 256 % 256] = deviceId := by
    simp only [leVal, List.foldr]
    omega
  have hseq : leVal [seqNum % 256, seqNum / 256 % 256] = seqNum := by
    simp only [leVal, List.foldr]
    omega
  rw [hdev, hseq]
  simp [MSG_COMMAND]

/-- Claim C7 witness: round trip at a concrete frame. -/
theorem C7_command_frame_roundtrip_witness :
    decodeFrame (encodeCommandFrame 258 3 9 [1]) =
      .ok ({ msgType := 4, deviceId := 258, sequenceNum := 3, payloadLen := 3 },
           [9, 1, 1]) := by
  have h := (C7_command_frame_roundtrip 258 3 9 [1] (by decide) (by decide)
    (by decide) (by decide)).2
  simpa [MSG_COMMAND] using h

/-! ## Claim C4 — declared payload length vs received length -/

/-- The gateway state at boot: empty registry, empty decoded-record
queue, zeroed counters. -/
def gw0 : GwState :=
  { registry := [], rxQueue := [], packetsReceived := 0, packetsDropped := 0,
    duplicatesFiltered := 0, acksSent := 0 }

/-- First 15 header bytes of a frame that declares a 1-byte payload:
magic, version, type READINGS, device id 2, sequence 3, payload
length 1. -/
def rawTruncHead : List Nat :=
  [LORA_MAGIC_BYTE_1, LORA_MAGIC_BYTE_2, LORA_PROTOCOL_VERSION, MSG_READINGS,
   2, 0, 0, 0, 0, 0, 0, 0, 3, 0, 1]

/-- A 16-byte reception whose header declares one payload byte: the
declared payload length plus the header size exceeds the received
length. -/
def rawTrunc : List Nat := rawTruncHead ++ [xorBytes rawTruncHead]

/-- Claim C4 counterexample: the frame `rawTrunc` declares more payload
than was received, so the claim says it is rejected as truncated —
dropped, not recorded, not enqueued.  The receive task has no such
check: the frame passes header validation, is recorded in the registry,
enqueued for publishing, counted as received and not as dropped. -/
theorem C4_counterexample_truncated_frame_processed :
    rawTrunc.length < headerSize + (parseHeader rawTrunc).payloadLen ∧
    validateHeader rawTrunc = true ∧
    (processPacket gw0 rawTrunc (-80) 7 100).packetsDropped = 0 ∧
    (processPacket gw0 rawTrunc (-80) 7 100).rxQueue.length = 1 ∧
    (processPacket gw0 rawTrunc (-80) 7 100).registry.length = 1 := by
  decide

/-- Claim C4 (amended): the receive task rejects a frame only for being
shorter than the header or failing the magic/version/checksum header
validation.  Whenever the frame is at least header-sized, passes header
validation and is not a duplicate, it is recorded in the registry and —
when the 20-slot decoded-record queue has room — enqueued for
publishing, with nothing counted as dropped, regardless of whether the
declared payload length exceeds the received byte count (the payload
bytes are copied only when the declared length is between 1 and 238,
out of the zero-padded receive buffer).  In particular a payload of
exactly 238 declared and received bytes is decoded and enqueued. -/
theorem C4_valid_header_always_processed
    (st : GwState) (raw : List Nat) (rssi snr : Int) (now : Nat)
    (hlen : headerSize ≤ raw.length)
    (hv : validateHeader raw = true)
    (hd : isDuplicate st.registry (parseHeader raw).deviceId
      (parseHeader raw).sequenceNum = false)
    (hq : st.rxQueue.length < 20) :
    (processPacket st raw rssi snr now).registry =
      updateDeviceInfo now st.registry (parseHeader raw).deviceId
        (parseHeader raw).sequenceNum rssi snr ∧
    (processPacket st raw rssi snr now).rxQueue =
      st.rxQueue ++ [{ header := parseHeader raw,
                       payload := rxPayloadBytes raw (parseHeader raw).payloadLen,
                       rssi := rssi, snr := snr, timestamp := now }] ∧
    (processPacket st raw rssi snr now).packetsDropped = st.packetsDropped ∧
    (processPacket st raw rssi snr now).packetsReceived = st.packetsReceived + 1 ∧
    (processPacket st raw rssi snr now).duplicatesFiltered =
      st.duplicatesFiltered := by
  unfold processPacket
  rw [if_neg (by omega), if_neg (by simp [hv])]
  simp only [hd, Bool.false_eq_true, if_false, if_pos hq]
  split <;> simp

/-- First 15 header bytes of a frame declaring the maximum payload
length of 238 bytes. -/
def raw238Head : List Nat :=
  [LORA_MAGIC_BYTE_1, LORA_MAGIC_BYTE_2, LORA_PROTOCOL_VERSION, MSG_READINGS,
   2, 0, 0, 0, 0, 0, 0, 0, 3, 0, 238]

/-- A boundary reception: full 16-byte header plus exactly 238 received
payload bytes. -/
def raw238 : List Nat :=
  raw238Head ++ [xorBytes raw238Head] ++ List.replicate 238 5

set_option maxRecDepth 8000 in
/-- Claim C4 witness: the boundary frame with declared and received
payload of exactly 238 bytes is recorded and enqueued with nothing
dropped. -/
theorem C4_valid_header_always_processed_witness :
    (processPacket gw0 raw238 1 2 50).rxQueue =
      [] ++ [{ header := parseHeader raw238,
               payload := rxPayloadBytes raw238 (parseHeader raw238).payloadLen,
               rssi := 1, snr := 2, timestamp := 50 }] ∧
    (processPacket gw0 raw238 1 2 50).packetsDropped = 0 := by
  have h := C4_valid_header_always_processed gw0 raw238 1 2 50
    (by decide) (by decide) (by decide) (by decide)
  exact ⟨h.2.1, h.2.2.1⟩

/-! ## Claim C8 -- readings classification and published fields -/

/-- A temperature-only READINGS payload: pressure and humidity both
zero. -/
def rTempOnly : ReadingsPayload :=
  { temperature := 2531, humidity := 0, pressure := 0, altitude := 120,
    batteryVoltage := 3700, batteryPercent := 85, pressureChange := -50,
    pressureTrend := 0, timestamp := 1234567890 }

/-- Claim C8 counterexample: the claim says the published message
contains all payload fields; for a record classified temperature-only
(pressure = 0, humidity = 0) the code omits humidity, pressure,
altitude, pressure-change and pressure-trend from the message. -/
theorem C8_counterexample_temp_only_omits_fields :
    detectSensorType rTempOnly = "DS18B20" ∧
    (publishReadings 17 123 READINGS_PAYLOAD_SIZE rTempOnly "n" "l" (-85) 9
        777).map (fun p => p.2.map Prod.fst) =
      some ["device_id", "device_name", "location", "sensor_type", "timestamp",
            "sequence", "temperature", "battery_voltage", "battery_percent",
            "rssi", "snr", "gateway_time"] ∧
    "humidity" ∉ ["device_id", "device_name", "location", "sensor_type",
                   "timestamp", "sequence", "temperature", "battery_voltage",
                   "battery_percent", "rssi", "snr", "gateway_time"] ∧
    "pressure" ∉ ["device_id", "device_name", "location", "sensor_type",
                   "timestamp", "sequence", "temperature", "battery_voltage",
                   "battery_percent", "rssi", "snr", "gateway_time"] := by
  decide

/-- Claim C8 (amended): for every READINGS record passing the size
guard, the translator classifies by the decision tree (pressure ≠ 0 →
environmental-multi/BME280; else humidity ≠ 0 →
humidity-temperature/DHT22; else temperature-only/DS18B20) and
publishes on `<prefix>/<hex-id>/readings` a flat message carrying
identity, name, location, sensor type, sequence, both timestamps,
temperature / 100, battery millivolts / 1000, battery percent, and
RSSI/SNR; humidity / 100, pressure / 100, altitude, pressure-change and
pressure-trend are present exactly when the record is not classified
temperature-only. -/
theorem C8_readings_translation
    (deviceId seqNum payloadLen : Nat) (r : ReadingsPayload)
    (deviceName deviceLocation : String) (rssi snr : Int) (gatewayTime : Nat)
    (h : payloadLen = READINGS_PAYLOAD_SIZE) :
    ∃ msg,
      publishReadings deviceId seqNum payloadLen r deviceName deviceLocation
          rssi snr gatewayTime =
        some (mqttTopicRoot ++ formatDeviceId deviceId ++ "/readings", msg) ∧
      ("device_id", JVal.s (formatDeviceId deviceId)) ∈ msg ∧
      ("device_name", JVal.s deviceName) ∈ msg ∧
      ("location", JVal.s deviceLocation) ∈ msg ∧
      ("sequence", JVal.q (seqNum : ℚ)) ∈ msg ∧
      ("timestamp", JVal.q (r.timestamp : ℚ)) ∈ msg ∧
      ("gateway_time", JVal.q (gatewayTime : ℚ)) ∈ msg ∧
      ("temperature", JVal.q ((r.temperature : ℚ) / 100)) ∈ msg ∧
      ("battery_voltage", JVal.q ((r.batteryVoltage : ℚ) / 1000)) ∈ msg ∧
      ("battery_percent", JVal.q (r.batteryPercent : ℚ)) ∈ msg ∧
      ("rssi", JVal.q (rssi : ℚ)) ∈ msg ∧
      ("snr", JVal.q (snr : ℚ)) ∈ msg ∧
      (r.pressure ≠ 0 →
        ("sensor_type", JVal.s "BME280") ∈ msg ∧
        ("humidity", JVal.q ((r.humidity : ℚ) / 100)) ∈ msg ∧
        ("pressure", JVal.q ((r.pressure : ℚ) / 100)) ∈ msg ∧
        ("altitude", JVal.q (r.altitude : ℚ)) ∈ msg ∧
        ("pressure_change", JVal.q (r.pressureChange : ℚ)) ∈ msg ∧
        ("pressure_trend", JVal.q (r.pressureTrend : ℚ)) ∈ msg) ∧
      (r.pressure = 0 → r.humidity ≠ 0 →
        ("sensor_type", JVal.s "DHT22") ∈ msg ∧
        ("humidity", JVal.q ((r.humidity : ℚ) / 100)) ∈ msg ∧
        ("pressure", JVal.q ((r.pressure : ℚ) / 100)) ∈ msg) ∧
      (r.pressure = 0 → r.humidity = 0 →
        ("sensor_type", JVal.s "DS18B20") ∈ msg ∧
        ∀ kv ∈ msg, kv.1 ≠ "humidity" ∧ kv.1 ≠ "pressure") := by
  subst h
  unfold publishReadings
  rw [if_neg (by simp)]
  by_cases hp : r.pressure = 0
  · by_cases hh : r.humidity = 0
    · refine ⟨[("device_id", JVal.s (formatDeviceId deviceId)),
        ("device_name", JVal.s deviceName),
        ("location", JVal.s deviceLocation), ("sensor_type", JVal.s "DS18B20"),
        ("timestamp", JVal.q (r.timestamp : ℚ)), ("sequence", JVal.q (seqNum : ℚ)),
        ("temperature", JVal.q ((r.temperature : ℚ) / 100)),
        ("battery_voltage", JVal.q ((r.batteryVoltage : ℚ) / 1000)),
        ("battery_percent", JVal.q (r.batteryPercent : ℚ)),
        ("rssi", JVal.q (rssi : ℚ)), ("snr", JVal.q (snr : ℚ)),
        ("gateway_time", JVal.q (gatewayTime : ℚ))],
        by simp [detectSensorType, hp, hh], ?_, ?_, ?_, ?_, ?_, ?_,
        ?_, ?_, ?_, ?_, ?_, ?_, ?_, ?_⟩ <;>
        simp [detectSensorType, hp, hh]
    · refine ⟨[("device_id", JVal.s (formatDeviceId deviceId)),
        ("device_name", JVal.s deviceName),
        ("location", JVal.s deviceLocation), ("sensor_type", JVal.s "DHT22"),
        ("timestamp", JVal.q (r.timestamp : ℚ)), ("sequence", JVal.q (seqNum : ℚ)),
        ("temperature", JVal.q ((r.temperature : ℚ) / 100)),
        ("humidity", JVal.q ((r.humidity : ℚ) / 100)),
        ("pressure", JVal.q ((r.pressure : ℚ) / 100)),
        ("altitude", JVal.q (r.altitude : ℚ)),
        ("pressure_change", JVal.q (r.pressureChange : ℚ)),
        ("pressure_trend", JVal.q (r.pressureTrend : ℚ)),
        ("battery_voltage", JVal.q ((r.batteryVoltage : ℚ) / 1000)),
        ("battery_percent", JVal.q (r.batteryPercent : ℚ)),
        ("rssi", JVal.q (rssi : ℚ)), ("snr", JVal.q (snr : ℚ)),
        ("gateway_time", JVal.q (gatewayTime : ℚ))],
        by simp [detectSensorType, hp, hh], ?_, ?_, ?_, ?_, ?_, ?_,
        ?_, ?_, ?_, ?_, ?_, ?_, ?_, ?_⟩ <;>
        simp [detectSensorType, hp, hh]
  · refine ⟨[("device_id", JVal.s (formatDeviceId deviceId)),
      ("device_name", JVal.s deviceName),
      ("location", JVal.s deviceLocation), ("sensor_type", JVal.s "BME280"),
      ("timestamp", JVal.q (r.timestamp : ℚ)), ("sequence", JVal.q (seqNum : ℚ)),
      ("temperature", JVal.q ((r.temperature : ℚ) / 100)),
      ("humidity", JVal.q ((r.humidity : ℚ) / 100)),
      ("pressure", JVal.q ((r.pressure : ℚ) / 100)),
      ("altitude", JVal.q (r.altitude : ℚ)),
      ("pressure_change", JVal.q (r.pressureChange : ℚ)),
      ("pressure_trend", JVal.q (r.pressureTrend : ℚ)),
      ("battery_voltage", JVal.q ((r.batteryVoltage : ℚ) / 1000)),
      ("battery_percent", JVal.q (r.batteryPercent : ℚ)),
      ("rssi", JVal.q (rssi : ℚ)), ("snr", JVal.q (snr : ℚ)),
      ("gateway_time", JVal.q (gatewayTime : ℚ))],
      by simp [detectSensorType, hp], ?_, ?_, ?_, ?_, ?_, ?_,
      ?_, ?_, ?_, ?_, ?_, ?_, ?_, ?_⟩ <;>
      simp [detectSensorType, hp]

/-- A BME280-class READINGS payload from scenario 1 of the spec. -/
def rBme : ReadingsPayload :=
  { temperature := 2531, humidity := 5520, pressure := 101325, altitude := 120,
    batteryVoltage := 3700, batteryPercent := 85, pressureChange := -50,
    pressureTrend := 0, timestamp := 1234567890 }

/-- Claim C8 witness: the amended theorem at the concrete BME280-class
record; the humidity field is present with the centi-scaled value. -/
theorem C8_readings_translation_witness :
    ("humidity", JVal.q ((5520 : ℚ) / 100)) ∈
      ((publishReadings 17 123 READINGS_PAYLOAD_SIZE rBme "n" "l" (-85) 9
          777).getD ("", [])).2 := by
  obtain ⟨msg, hmsg, h1, h2, h3, h4, h5, h6, h7, h8, h9, h10, h11, hbme,
    hdht, hds⟩ :=
    C8_readings_translation 17 123 READINGS_PAYLOAD_SIZE rBme "n" "l" (-85) 9
      777 rfl
  rw [hmsg]
  exact (hbme (by decide)).2.1

end LoraGw
